import Mathlib

/-!
Verification of the pet-tracker server's event-detection and notification
pipeline.  The definitions below are a shallow embedding of the JavaScript
sources: `src/utils/isInsideGeofence.js` (geometry evaluator),
`src/utils/dbRetry.js` (store retry helper),
`src/utils/userNotificationUtils.js` (SMS preference lookup) and the
`app.post("/data")` pipeline plus the offline sweep in `src/server.js`.
JavaScript numbers are modelled as rationals, `undefined`/absent values as
`Option`, thrown exceptions as `Except`, and the external geometry library
(turf) as an explicit oracle parameter.
-/

namespace PetTracker

/-- A raw JavaScript value as it comes back from the MySQL driver: a number,
a string, a boolean, or SQL NULL.  Used for the columns of
`sms_notification_settings`. -/
inductive JsVal where
  | num (n : ℤ)
  | str (s : String)
  | boolean (b : Bool)
  | null
deriving DecidableEq, Repr

/-- The permissive truthiness test used by `isNotificationEnabled`
(`userNotificationUtils.js`): `v === 1 || v === '1' || v === true`. -/
def truthyFlag (v : JsVal) : Bool :=
  v == JsVal.num 1 || v == JsVal.str "1" || v == JsVal.boolean true

/-- One row of the `sms_notification_settings` table.  The global flag column
`enable_sms_notification` is explicit; the per-event-kind columns are an
association list indexed by column name (an absent column models the
JavaScript `undefined`). -/
structure SettingsRow where
  enable_sms_notification : JsVal
  fields : List (String × JsVal)
deriving DecidableEq, Repr

/-- Column access `rows[0][eventType]`: `none` models `undefined`. -/
def SettingsRow.get (row : SettingsRow) (k : String) : Option JsVal :=
  (row.fields.find? (fun p => p.1 == k)).map (fun p => p.2)

/-- Truthiness of a possibly-`undefined` value: `undefined` is not `1`,
`'1'` or `true`, so it is disabled. -/
def truthyOpt (v : Option JsVal) : Bool :=
  match v with
  | some w => truthyFlag w
  | none => false

/-- Shallow embedding of `isNotificationEnabled(pool, userId, eventType)`
from `userNotificationUtils.js`.  `userId`/`eventType` are `none` when the
JavaScript argument is missing (falsy); `dbResult` is the outcome of the
settings query: a thrown error (`.error`) or the returned row list.
Returns `false` on missing arguments, a thrown error, or an empty row list;
otherwise requires both the global flag and the event-kind column of the
first row to be truthy. -/
def isNotificationEnabled (userId : Option ℕ) (eventType : Option String)
    (dbResult : Except Unit (List SettingsRow)) : Bool :=
  match userId, eventType with
  | some _, some ev =>
    match dbResult with
    | .error _ => false
    | .ok [] => false
    | .ok (row :: _) =>
        truthyFlag row.enable_sms_notification && truthyOpt (row.get ev)
  | _, _ => false

/-- The condition the spec asserts for SMS dispatch: the settings query
succeeded with a row whose global flag and whose `ev` column are both
truthy. -/
def bothFlagsTruthy (ev : String) (dbResult : Except Unit (List SettingsRow)) : Bool :=
  match dbResult with
  | .ok (row :: _) =>
      truthyFlag row.enable_sms_notification && truthyOpt (row.get ev)
  | _ => false

/-- The SMS gating sequence shared by the low_battery, online, in_geofence,
out_geofence (server.js `app.post("/data")`) and offline (sweep) paths:
the path first queries the settings rows itself and `continue`s when the
list is empty, then calls `isNotificationEnabled`, then resolves the
owner's phone number and `continue`s when it is missing.  The SMS is sent
exactly when all three gates pass. -/
def standardSmsDispatched (preSettings : List SettingsRow) (userId : Option ℕ)
    (eventType : Option String) (dbResult : Except Unit (List SettingsRow))
    (phoneNumber : Option String) : Bool :=
  !preSettings.isEmpty && isNotificationEnabled userId eventType dbResult
    && phoneNumber.isSome

/-- The SMS gating of the nearby-pets path (server.js lines 938-959):
`userSetting.nearbyPetsEnabled || await isNotificationEnabled(pool, userId,
"nearby_pet")`, followed by the phone-number check.  `joinedNearbyFlag`
models `user.nearby_pet_enabled` from the LEFT-JOIN prefetch (`none` when
the prefetch failed or found no row); the code converts it with
`=== 1` only, and short-circuits `isNotificationEnabled` when it is `1`. -/
def nearbySmsDispatched (joinedNearbyFlag : Option JsVal) (userId : Option ℕ)
    (dbResult : Except Unit (List SettingsRow)) (phoneNumber : Option String) : Bool :=
  let nearbyPetsEnabled :=
    match joinedNearbyFlag with
    | some v => v == JsVal.num 1
    | none => false
  let notificationEnabled :=
    nearbyPetsEnabled || isNotificationEnabled userId (some "nearby_pet") dbResult
  notificationEnabled && phoneNumber.isSome

/-- A settings row with SMS globally disabled but the `nearby_pet` column
set to `1`, as stored by the settings endpoint. -/
def globalOffNearbyOnRow : SettingsRow :=
  { enable_sms_notification := JsVal.num 0
    fields := [("nearby_pet", JsVal.num 1)] }

/-- The parsed content of a `poly_rect` column, as seen by
`isInsideGeofence.js`: `JSON.parse` may throw (`unparsable`), may return a
non-array (`notArray`), or may return an array of `[lat, lng]` pairs. -/
inductive PolyData where
  | unparsable
  | notArray
  | arr (points : List (ℚ × ℚ))
deriving DecidableEq, Repr

/-- One geofence row as fetched from the store.  `type` is the raw string
column (`none` = SQL NULL); numeric circle columns are `none` when the
value does not pass JavaScript's `!isNaN` coercion; `poly_rect` is `none`
when the column is falsy. -/
structure Fence where
  geofence_id : ℕ
  type : Option String
  center_lat : Option ℚ
  center_lng : Option ℚ
  radius : Option ℚ
  poly_rect : Option PolyData
deriving DecidableEq, Repr

/-- JavaScript's `toLowerCase()` on the ASCII type names used here, written
with structural recursion so that the kernel can evaluate it. -/
def jsToLower (s : String) : String := String.mk (s.data.map Char.toLower)

/-- The external geometry library (turf) as an oracle: great-circle distance
in meters from a circle center to the device point, point-in-polygon over a
closed `[lng, lat]` ring, and point-to-ring distance in meters. -/
structure GeoOracle where
  dist : ℚ → ℚ → ℚ → ℚ → ℚ
  pip : List (ℚ × ℚ) → ℚ → ℚ → Bool
  lineDist : List (ℚ × ℚ) → ℚ → ℚ → ℚ

/-- `coords.map(([lat, lng]) => [lng, lat])` followed by
`geoJsonCoords.push(geoJsonCoords[0])`: swap each pair and close the ring
(only used on lists of at least three points, so the default is inert). -/
def closeRing (pts : List (ℚ × ℚ)) : List (ℚ × ℚ) :=
  let geo := pts.map (fun p => (p.2, p.1))
  geo ++ [geo.headD (0, 0)]

/-- `if (diff < minDistance) minDistance = diff` where `none` models the
initial `Infinity` (every finite value is below `Infinity`). -/
def updateMin (minD : Option ℚ) (x : ℚ) : Option ℚ :=
  match minD with
  | none => some x
  | some m => if x < m then some x else some m

/-- Outcome of one iteration of the fence loop: the `break` taken when a
region contains the point, or the next value of `minDistance`. -/
inductive FenceStep where
  | inside
  | next (minD : Option ℚ)
deriving DecidableEq

/-- The polygon/rectangle branch of the loop body: entered only for those
types with a truthy `poly_rect`; an unparsable or non-array value or fewer
than three points leaves the state unchanged (`catch`/`continue`),
otherwise the closed ring is tested with point-in-polygon and, when
outside, the ring distance folded into `minDistance`. -/
def polyStep (o : GeoOracle) (lat lng : ℚ) (f : Fence) (minD : Option ℚ) : FenceStep :=
  let ty := f.type.map jsToLower
  if ty = some "polygon" ∨ ty = some "rectangle" then
    match f.poly_rect with
    | none => FenceStep.next minD
    | some PolyData.unparsable => FenceStep.next minD
    | some PolyData.notArray => FenceStep.next minD
    | some (PolyData.arr pts) =>
        if pts.length < 3 then FenceStep.next minD
        else
          let ring := closeRing pts
          if o.pip ring lat lng then FenceStep.inside
          else FenceStep.next (updateMin minD (o.lineDist ring lat lng))
  else FenceStep.next minD

/-- One iteration of the `for (const fence of geofences)` loop in
`isInsideGeofence.js`: the circle branch fires for type `"circle"` with
three non-NaN numeric fields (inside iff distance ≤ radius, else the
overshoot `distance − radius` is folded into `minDistance`); any other
fence falls through to the polygon branch. -/
def stepFence (o : GeoOracle) (lat lng : ℚ) (f : Fence) (minD : Option ℚ) : FenceStep :=
  let ty := f.type.map jsToLower
  if ty = some "circle" ∧ f.center_lat.isSome ∧ f.center_lng.isSome ∧ f.radius.isSome then
    let d := o.dist (f.center_lat.getD 0) (f.center_lng.getD 0) lat lng
    let r := f.radius.getD 0
    if d ≤ r then FenceStep.inside
    else FenceStep.next (updateMin minD (d - r))
  else polyStep o lat lng f minD

/-- The fence loop: returns the `isInsideAny` flag and the final
`minDistance` (`none` = `Infinity`). -/
def evalLoop (o : GeoOracle) (lat lng : ℚ) : List Fence → Option ℚ → Bool × Option ℚ
  | [], minD => (false, minD)
  | f :: rest, minD =>
      match stepFence o lat lng f minD with
      | .inside => (true, minD)
      | .next minD' => evalLoop o lat lng rest minD'

/-- A JavaScript number that may be `Infinity`. -/
inductive JsNum where
  | infinity
  | val (q : ℚ)
deriving DecidableEq, Repr

/-- `Number(minDistance.toFixed(2))`: round to two decimals. -/
def round2 (q : ℚ) : ℚ := (⌊q * 100 + 1 / 2⌋ : ℤ) / 100

/-- The record returned by `isInsideGeofence`. -/
structure GeofenceResult where
  isInside : Bool
  distance : JsNum
deriving DecidableEq, Repr

/-- Shallow embedding of `isInsideGeofence(deviceLat, deviceLng, geofences)`
from `src/utils/isInsideGeofence.js`, parametrized by the turf oracle. -/
def isInsideGeofence (o : GeoOracle) (deviceLat deviceLng : ℚ)
    (geofences : List Fence) : GeofenceResult :=
  let r := evalLoop o deviceLat deviceLng geofences none
  { isInside := r.1
    distance :=
      if r.1 then JsNum.val 0
      else
        match r.2 with
        | none => JsNum.infinity
        | some q => JsNum.val (round2 q) }

/-- A malformed `poly_rect` in the sense of the spec: fails to parse, is not
an array, or has fewer than three points. -/
def malformedPoly (pd : Option PolyData) : Bool :=
  match pd with
  | some PolyData.unparsable => true
  | some PolyData.notArray => true
  | some (PolyData.arr pts) => decide (pts.length < 3)
  | none => false

/-- A fence that the evaluator skips without touching its state: a circle
with a NaN field, a polygon/rectangle with an absent or malformed
`poly_rect`, or an unrecognized type. -/
def skippedFence (f : Fence) : Bool :=
  let ty := f.type.map jsToLower
  if ty = some "circle" then
    !(f.center_lat.isSome && f.center_lng.isSome && f.radius.isSome)
  else if ty = some "polygon" ∨ ty = some "rectangle" then
    match f.poly_rect with
    | none => true
    | some pd => malformedPoly (some pd)
  else true

/-- A geofence transition event raised by the report pipeline: `entered` is
`true` for a false→true containment edge and `false` for a true→false
edge, one event per (geofence, owning tracker) pair. -/
structure GeofEvent where
  userId : ℕ
  geofenceId : ℕ
  entered : Bool
deriving DecidableEq, Repr

/-- The geofence section of `app.post("/data")` (server.js lines 447-675):
with no assigned geofences the check is skipped and the stored state
untouched; otherwise each region is evaluated individually against the
report coordinates, `wasInside`/`isNowInside` are diffed per region and
per owning tracker (events only on edges), and
`global.lastGeofenceState[deviceId]` is overwritten with the list of
containing region ids.  Returns (raised events, new stored state). -/
def processGeofences (o : GeoOracle) (lat lng : ℚ) (fences : List Fence)
    (trackers : List ℕ) (lastState : List ℕ) : List GeofEvent × List ℕ :=
  if fences.isEmpty then ([], lastState)
  else
    let insideGeofences :=
      (fences.filter (fun g => (isInsideGeofence o lat lng [g]).isInside)).map
        (fun g => g.geofence_id)
    let events :=
      fences.flatMap (fun g =>
        trackers.filterMap (fun uid =>
          let wasInside := lastState.contains g.geofence_id
          let isNowInside := insideGeofences.contains g.geofence_id
          if !wasInside && isNowInside then
            some ⟨uid, g.geofence_id, true⟩
          else if wasInside && !isNowInside then
            some ⟨uid, g.geofence_id, false⟩
          else none))
    (events, insideGeofences)

/-- A geometry oracle whose distance function is the constant `d` (used to
exercise the evaluator at chosen distances). -/
def constOracle (d : ℚ) : GeoOracle :=
  { dist := fun _ _ _ _ => d
    pip := fun _ _ _ => false
    lineDist := fun _ _ _ => 0 }

/-- A well-formed circle fence of radius `r` centered at the origin. -/
def circleFence (r : ℚ) : Fence :=
  { geofence_id := 1
    type := some "circle"
    center_lat := some 0
    center_lng := some 0
    radius := some r
    poly_rect := none }

/-- A polygon fence whose stored ring has only two points. -/
def shortPolyFence : Fence :=
  { geofence_id := 2
    type := some "polygon"
    center_lat := none
    center_lng := none
    radius := none
    poly_rect := some (PolyData.arr [(0, 0), (0, 1)]) }

/-- An entry of the in-memory `latestDevices` map (server.js line 212):
coordinates, optional battery, last-seen timestamp and cached owner. -/
structure DeviceSnapshot where
  lat : ℚ
  lng : ℚ
  battery : Option ℚ
  lastSeen : ℕ
  userId : Option ℕ
deriving DecidableEq, Repr

/-- The `latestDevices` object keyed by device id (`none` = key absent). -/
abbrev DeviceMap := String → Option DeviceSnapshot

/-- The low-battery trigger condition of `app.post("/data")` (server.js
lines 221-225): `data.battery !== undefined && data.battery <= 20 &&
(prevState.battery === undefined || prevState.battery > 20)`. -/
def lowBatteryFires (prevBattery currBattery : Option ℚ) : Bool :=
  match currBattery with
  | none => false
  | some b =>
      decide (b ≤ 20) &&
        (match prevBattery with
         | none => true
         | some p => decide (p > 20))

/-- The battery-relevant part of one report: read `prevState` from
`latestDevices`, overwrite the entry with the fresh report, and decide the
low-battery trigger from the previous battery and the reported one.
Returns (updated map, low-battery event raised). -/
def processBatteryReport (m : DeviceMap) (deviceId : String) (lat lng : ℚ)
    (battery : Option ℚ) (now : ℕ) (userId : Option ℕ) : DeviceMap × Bool :=
  let prevBattery := (m deviceId).bind (fun s => s.battery)
  let fires := lowBatteryFires prevBattery battery
  ((fun d => if d = deviceId then some ⟨lat, lng, battery, now, userId⟩ else m d),
   fires)

/-- `CHECK_INTERVAL` (server.js line 78): the liveness threshold in ms. -/
def CHECK_INTERVAL : ℕ := 30000

/-- The process-wide liveness state: the known device ids (keys of
`latestDevices`), their last-seen timestamps, and the `deviceStatus`
map (`none` before any report, else `"online"`/`"offline"`). -/
structure LiveState where
  devices : List String
  lastSeen : String → Option ℕ
  status : String → Option String

/-- The status-relevant part of the synchronous report path: upsert the
device's `latestDevices` entry (fresh timestamp) and set
`deviceStatus[deviceId] = "online"`, raising an online event when the
previous status was not `"online"` (server.js lines 210-219 and 325-327).
Returns (new state, online event raised). -/
def reportStep (st : LiveState) (deviceId : String) (now : ℕ) : LiveState × Bool :=
  let devices' := if deviceId ∈ st.devices then st.devices else st.devices ++ [deviceId]
  let lastSeen' := fun d => if d = deviceId then some now else st.lastSeen d
  let onlineEvent := !(st.status deviceId == some "online")
  let status' := fun d => if d = deviceId then some "online" else st.status d
  (⟨devices', lastSeen', status'⟩, onlineEvent)

/-- The periodic offline sweep (server.js lines 1051-1058): every known
device whose report is older than `CHECK_INTERVAL` and whose status is not
already `"offline"` is flipped to `"offline"` and its offline notification
path triggered.  Returns (new state, devices flipped offline). -/
def sweepStep (st : LiveState) (now : ℕ) : LiveState × List String :=
  let flips := st.devices.filter (fun d =>
    match st.lastSeen d with
    | some t => decide (now - t > CHECK_INTERVAL) && !(st.status d == some "offline")
    | none => false)
  let status' := fun d => if d ∈ flips then some "offline" else st.status d
  (⟨st.devices, st.lastSeen, status'⟩, flips)

/-- JavaScript's default array sort order on strings (lexicographic). -/
def strLe (a b : String) : Bool := decide (a ≤ b)

/-- `[...nearbyDeviceIds, data.deviceId].sort().join(',')` (server.js lines
866-867): the latch key of a nearby-pets group. -/
def interactionKey (deviceId : String) (nearbyIds : List String) : String :=
  String.intercalate "," ((nearbyIds ++ [deviceId]).mergeSort strLe)

/-- One qualifying nearby-pets detection (the body guarded by
`involvedUserIds.length > 1`): the reporting device, the nearby device ids,
and the distinct owners involved. -/
structure NearbyReport where
  deviceId : String
  nearbyIds : List String
  involvedUserIds : List String
deriving DecidableEq, Repr

/-- What one qualifying report produced: the latch key, the owners that
received the live `"nearby-pets"` broadcast, and whether the
notification-record/SMS path ran. -/
structure NearbyOutcome where
  key : String
  broadcastTo : List String
  notified : Bool
deriving DecidableEq, Repr

/-- The latch logic of server.js lines 862-993: the broadcast to every
involved owner is unconditional; the notification/SMS path runs only when
the key is unseen in `global.nearbyPetsInteractions`, in which case the key
is latched. -/
def processNearbyReport (interactions : List String) (r : NearbyReport) :
    List String × NearbyOutcome :=
  let key := interactionKey r.deviceId r.nearbyIds
  let hasNotifiedBefore := interactions.contains key
  ((if hasNotifiedBefore then interactions else key :: interactions),
   ⟨key, r.involvedUserIds, !hasNotifiedBefore⟩)

/-- Run a sequence of qualifying nearby-pets reports against the latch
state, collecting each report's outcome. -/
def runNearby (interactions : List String) : List NearbyReport → List NearbyOutcome
  | [] => []
  | r :: rs =>
      let p := processNearbyReport interactions r
      p.2 :: runNearby p.1 rs

/-- The MySQL error codes distinguished by `executeWithRetry`
(`dbRetry.js` lines 34-38); `other` covers every remaining code. -/
inductive DbErrorCode where
  | ECONNRESET
  | PROTOCOL_CONNECTION_LOST
  | PROTOCOL_ENQUEUE_AFTER_FATAL_ERROR
  | ETIMEDOUT
  | other (code : String)
deriving DecidableEq, Repr

/-- `isRetryableError` from `dbRetry.js`. -/
def isRetryableError (c : DbErrorCode) : Bool :=
  c == DbErrorCode.ECONNRESET || c == DbErrorCode.PROTOCOL_CONNECTION_LOST
    || c == DbErrorCode.PROTOCOL_ENQUEUE_AFTER_FATAL_ERROR
    || c == DbErrorCode.ETIMEDOUT

/-- The retry loop of `executeWithRetry` (`dbRetry.js` lines 18-65).
`op attempt` is the outcome of running `pool.getConnection()` plus the
operation on attempt number `attempt`.  On success the result is returned;
on error the loop throws when the attempt count is exhausted or the error
is not retryable, and otherwise sleeps `delay` ms and retries with the
delay doubled.  Returns (final outcome, list of sleeps performed). -/
def retryLoop {α : Type} (op : ℕ → Except DbErrorCode α) (maxRetries : ℕ)
    (attempt : ℕ) (delay : ℕ) : Except DbErrorCode α × List ℕ :=
  match op attempt with
  | .ok v => (.ok v, [])
  | .error e =>
      if h : attempt ≥ maxRetries ∨ isRetryableError e = false then (.error e, [])
      else
        let rest := retryLoop op maxRetries (attempt + 1) (delay * 2)
        (rest.1, delay :: rest.2)
termination_by maxRetries - attempt
decreasing_by
  push_neg at h
  omega

/-- `executeWithRetry(operation, pool, maxRetries, initialDelay)`: run the
retry loop from attempt 0. -/
def executeWithRetry {α : Type} (op : ℕ → Except DbErrorCode α)
    (maxRetries initialDelay : ℕ) : Except DbErrorCode α × List ℕ :=
  retryLoop op maxRetries 0 initialDelay

/-- The exponential backoff schedule: `k` sleeps starting at `delay`,
doubling each time. -/
def geomSleeps (delay : ℕ) : ℕ → List ℕ
  | 0 => []
  | k + 1 => delay :: geomSleeps (delay * 2) k

/-- An operation that fails twice with a retryable error, then succeeds. -/
def opRetryTwice : ℕ → Except DbErrorCode ℕ :=
  fun i => if i < 2 then .error DbErrorCode.ECONNRESET else .ok 42

/-- An operation that fails once retryably, then with a non-retryable
error code. -/
def opFatalSecond : ℕ → Except DbErrorCode ℕ :=
  fun i => if i = 0 then .error DbErrorCode.ETIMEDOUT
           else .error (DbErrorCode.other "ER_DUP_ENTRY")

/-- An operation that always times out. -/
def opAlwaysTimeout : ℕ → Except DbErrorCode ℕ :=
  fun _ => .error DbErrorCode.ETIMEDOUT

end PetTracker

namespace PetTracker

/-- C10: `isNotificationEnabled` is fail-closed: a missing `userId`, a
missing `eventType`, a thrown database error, or an empty settings row list
all make it return `false`. -/
theorem isNotificationEnabled_fail_closed (userId : Option ℕ)
    (eventType : Option String) (dbResult : Except Unit (List SettingsRow))
    (h : userId = none ∨ eventType = none ∨ dbResult = .error () ∨ dbResult = .ok []) :
    isNotificationEnabled userId eventType dbResult = false := by
  rcases h with h | h | h | h
  · subst h; cases eventType <;> rfl
  · subst h; cases userId <;> rfl
  · subst h; cases userId <;> cases eventType <;> rfl
  · subst h; cases userId <;> cases eventType <;> rfl

/-- Witness for C10: all four unreadable states evaluate to `false`. -/
theorem isNotificationEnabled_fail_closed_witness :
    isNotificationEnabled none (some "online") (.ok [globalOffNearbyOnRow]) = false
    ∧ isNotificationEnabled (some 7) none (.ok [globalOffNearbyOnRow]) = false
    ∧ isNotificationEnabled (some 7) (some "online") (.error ()) = false
    ∧ isNotificationEnabled (some 7) (some "online") (.ok []) = false :=
  ⟨isNotificationEnabled_fail_closed none (some "online") (.ok [globalOffNearbyOnRow])
      (Or.inl rfl),
   isNotificationEnabled_fail_closed (some 7) none (.ok [globalOffNearbyOnRow])
      (Or.inr (Or.inl rfl)),
   isNotificationEnabled_fail_closed (some 7) (some "online") (.error ())
      (Or.inr (Or.inr (Or.inl rfl))),
   isNotificationEnabled_fail_closed (some 7) (some "online") (.ok [])
      (Or.inr (Or.inr (Or.inr rfl)))⟩

/-- C1 counterexample: with a settings row whose global SMS flag is `0` but
whose `nearby_pet` column is `1`, the nearby-pets SMS path dispatches the
SMS (the prefetched per-event flag short-circuits the check), even though
the global flag is not truthy — so SMS dispatch is not gated on both flags
for the `nearby_pet` event kind. -/
theorem nearby_sms_ignores_global_flag :
    nearbySmsDispatched (some (JsVal.num 1)) (some 7)
        (.ok [globalOffNearbyOnRow]) (some "639171234567") = true
    ∧ truthyFlag globalOffNearbyOnRow.enable_sms_notification = false
    ∧ bothFlagsTruthy "nearby_pet" (.ok [globalOffNearbyOnRow]) = false := by
  refine ⟨rfl, rfl, ?_⟩
  decide

/-- C1 (amended): for the low_battery, online, in_geofence, out_geofence and
offline paths, an SMS is dispatched only when both the global flag and the
per-event flag are truthy (truthy meaning `1`, `"1"` or `true`; an error or
absent row disables); for the nearby_pet path, an SMS is dispatched only
when the prefetched per-event flag equals numeric `1` or both flags are
truthy. -/
theorem sms_gating_amended :
    (∀ (preSettings : List SettingsRow) (userId : Option ℕ) (eventType : Option String)
        (dbResult : Except Unit (List SettingsRow)) (phoneNumber : Option String)
        (ev : String), eventType = some ev →
        standardSmsDispatched preSettings userId eventType dbResult phoneNumber = true →
        bothFlagsTruthy ev dbResult = true)
    ∧ (∀ (joinedNearbyFlag : Option JsVal) (userId : Option ℕ)
        (dbResult : Except Unit (List SettingsRow)) (phoneNumber : Option String),
        nearbySmsDispatched joinedNearbyFlag userId dbResult phoneNumber = true →
        joinedNearbyFlag = some (JsVal.num 1)
          ∨ bothFlagsTruthy "nearby_pet" dbResult = true) := by
  constructor
  · intro preSettings userId eventType dbResult phoneNumber ev hev h
    subst hev
    simp only [standardSmsDispatched, Bool.and_eq_true] at h
    obtain ⟨⟨-, hen⟩, -⟩ := h
    cases userId with
    | none => simp [isNotificationEnabled] at hen
    | some uid =>
      cases dbResult with
      | error e => simp [isNotificationEnabled] at hen
      | ok rows =>
        cases rows with
        | nil => simp [isNotificationEnabled] at hen
        | cons row rest => simpa [isNotificationEnabled, bothFlagsTruthy] using hen
  · intro joinedNearbyFlag userId dbResult phoneNumber h
    simp only [nearbySmsDispatched, Bool.and_eq_true, Bool.or_eq_true] at h
    obtain ⟨hgate, -⟩ := h
    cases hgate with
    | inl hflag =>
      left
      cases joinedNearbyFlag with
      | none => simp at hflag
      | some v => simp only [beq_iff_eq] at hflag; rw [hflag]
    | inr hen =>
      right
      cases userId with
      | none => simp [isNotificationEnabled] at hen
      | some uid =>
        cases dbResult with
        | error e => simp [isNotificationEnabled] at hen
        | ok rows =>
          cases rows with
          | nil => simp [isNotificationEnabled] at hen
          | cons row rest => simpa [isNotificationEnabled, bothFlagsTruthy] using hen

/-- Witness for the amended C1: a concrete standard-path dispatch implies
both flags truthy, and a concrete nearby-path dispatch implies the
prefetched flag was `1` or both flags were truthy. -/
theorem sms_gating_amended_witness :
    bothFlagsTruthy "online"
      (.ok [⟨JsVal.num 1, [("online", JsVal.str "1")]⟩]) = true
    ∧ (some (JsVal.num 1) = some (JsVal.num 1)
        ∨ bothFlagsTruthy "nearby_pet" (.ok [globalOffNearbyOnRow]) = true) :=
  ⟨sms_gating_amended.1 [⟨JsVal.num 1, [("online", JsVal.str "1")]⟩] (some 7)
      (some "online") (.ok [⟨JsVal.num 1, [("online", JsVal.str "1")]⟩])
      (some "639171234567") "online" rfl (by decide),
   sms_gating_amended.2 (some (JsVal.num 1)) (some 7) (.ok [globalOffNearbyOnRow])
      (some "639171234567") (by decide)⟩

/-- C6: for a circle region with a recognized type and three numeric fields,
the point is classified inside when its distance to the center equals the
radius (inclusive boundary), and outside when the distance strictly exceeds
the radius. -/
theorem circle_boundary_inclusive (o : GeoOracle) (lat lng clat clng r : ℚ) (f : Fence)
    (hty : f.type.map jsToLower = some "circle")
    (hlat : f.center_lat = some clat) (hlng : f.center_lng = some clng)
    (hr : f.radius = some r) :
    (o.dist clat clng lat lng = r → (isInsideGeofence o lat lng [f]).isInside = true)
    ∧ (o.dist clat clng lat lng > r → (isInsideGeofence o lat lng [f]).isInside = false) := by
  constructor <;> intro hd
  · simp [isInsideGeofence, evalLoop, stepFence, hty, hlat, hlng, hr, hd]
  · simp [isInsideGeofence, evalLoop, stepFence, hty, hlat, hlng, hr,
      not_le.mpr hd]

/-- Witness for C6: with distance 100, a radius-100 circle contains the
point and a radius-50 circle does not. -/
theorem circle_boundary_inclusive_witness :
    (isInsideGeofence (constOracle 100) 0 0 [circleFence 100]).isInside = true
    ∧ (isInsideGeofence (constOracle 100) 0 0 [circleFence 50]).isInside = false :=
  ⟨(circle_boundary_inclusive (constOracle 100) 0 0 0 0 100 (circleFence 100)
      rfl rfl rfl rfl).1 rfl,
   (circle_boundary_inclusive (constOracle 100) 0 0 0 0 50 (circleFence 50)
      rfl rfl rfl rfl).2 (by decide)⟩

/-- A fence whose loop iteration never breaks and never changes
`minDistance` can be deleted from the fence list without changing the
loop's result. -/
theorem evalLoop_skip (o : GeoOracle) (lat lng : ℚ) (f : Fence)
    (hskip : ∀ minD, stepFence o lat lng f minD = FenceStep.next minD) :
    ∀ (l1 l2 : List Fence) (minD : Option ℚ),
      evalLoop o lat lng (l1 ++ f :: l2) minD = evalLoop o lat lng (l1 ++ l2) minD := by
  intro l1
  induction l1 with
  | nil =>
      intro l2 minD
      simp [evalLoop, hskip minD]
  | cons g gs ih =>
      intro l2 minD
      simp only [List.cons_append, evalLoop]
      cases stepFence o lat lng g minD with
      | inside => rfl
      | next minD' => exact ih l2 minD'

/-- A malformed polygon/rectangle fence is skipped: its loop iteration
neither breaks nor changes `minDistance`. -/
theorem stepFence_malformed_poly (o : GeoOracle) (lat lng : ℚ) (f : Fence)
    (hty : f.type.map jsToLower = some "polygon"
      ∨ f.type.map jsToLower = some "rectangle")
    (hm : malformedPoly f.poly_rect = true) (minD : Option ℚ) :
    stepFence o lat lng f minD = FenceStep.next minD := by
  have hnc : ¬ (f.type.map jsToLower = some "circle"
      ∧ f.center_lat.isSome ∧ f.center_lng.isSome ∧ f.radius.isSome) := by
    rintro ⟨hcirc, -⟩
    rcases hty with hty | hty <;> rw [hty] at hcirc <;> exact absurd hcirc (by decide)
  simp only [stepFence, polyStep]
  rw [if_neg hnc, if_pos hty]
  rcases hpd : f.poly_rect with _ | pd
  · rfl
  · cases pd with
    | unparsable => rfl
    | notArray => rfl
    | arr pts =>
        rw [hpd] at hm
        simp only [malformedPoly, decide_eq_true_eq] at hm
        simp [hm]

/-- C7: a malformed polygon entry (unparsable, non-array, or fewer than
three points) never aborts the evaluator: it is skipped, the remaining
regions are all still evaluated, and the result equals the result on the
region list with the malformed entry removed. -/
theorem malformed_polygon_skipped (o : GeoOracle) (lat lng : ℚ) (f : Fence)
    (l1 l2 : List Fence)
    (hty : f.type.map jsToLower = some "polygon"
      ∨ f.type.map jsToLower = some "rectangle")
    (hm : malformedPoly f.poly_rect = true) :
    isInsideGeofence o lat lng (l1 ++ f :: l2) = isInsideGeofence o lat lng (l1 ++ l2) := by
  unfold isInsideGeofence
  rw [evalLoop_skip o lat lng f (stepFence_malformed_poly o lat lng f hty hm) l1 l2 none]

/-- Witness for C7: dropping a two-point polygon from a list leaves the
evaluator's result unchanged. -/
theorem malformed_polygon_skipped_witness :
    isInsideGeofence (constOracle 100) 0 0 [circleFence 50, shortPolyFence]
      = isInsideGeofence (constOracle 100) 0 0 [circleFence 50] :=
  malformed_polygon_skipped (constOracle 100) 0 0 shortPolyFence [circleFence 50] []
    (Or.inl rfl) rfl

/-- A skipped fence (unrecognized type, NaN circle fields, absent or
malformed polygon data) leaves the loop state unchanged. -/
theorem stepFence_skipped (o : GeoOracle) (lat lng : ℚ) (f : Fence)
    (hf : skippedFence f = true) (minD : Option ℚ) :
    stepFence o lat lng f minD = FenceStep.next minD := by
  rw [skippedFence] at hf
  simp only [stepFence, polyStep]
  by_cases hc : f.type.map jsToLower = some "circle"
  · rw [if_pos hc] at hf
    have hnc : ¬ (f.type.map jsToLower = some "circle"
        ∧ f.center_lat.isSome ∧ f.center_lng.isSome ∧ f.radius.isSome) := by
      rintro ⟨-, h1, h2, h3⟩
      rw [h1, h2, h3] at hf
      simp at hf
    have hnp : ¬ (f.type.map jsToLower = some "polygon"
        ∨ f.type.map jsToLower = some "rectangle") := by
      rintro (hp | hp) <;> rw [hc] at hp <;> exact absurd hp (by decide)
    rw [if_neg hnc, if_neg hnp]
  · rw [if_neg hc] at hf
    rw [if_neg (fun h => hc h.1)]
    by_cases hp : f.type.map jsToLower = some "polygon"
        ∨ f.type.map jsToLower = some "rectangle"
    · rw [if_pos hp] at hf
      rw [if_pos hp]
      rcases hpd : f.poly_rect with _ | pd
      · rfl
      · rw [hpd] at hf
        cases pd with
        | unparsable => rfl
        | notArray => rfl
        | arr pts =>
            simp only [malformedPoly, decide_eq_true_eq] at hf
            simp [hf]
    · rw [if_neg hp]

/-- A list of fences that are all skipped leaves the loop at its initial
state. -/
theorem evalLoop_all_skipped (o : GeoOracle) (lat lng : ℚ) :
    ∀ (fences : List Fence), (∀ f ∈ fences, skippedFence f = true) →
      ∀ minD, evalLoop o lat lng fences minD = (false, minD) := by
  intro fences
  induction fences with
  | nil => intro _ minD; rfl
  | cons f rest ih =>
      intro h minD
      rw [evalLoop, stepFence_skipped o lat lng f (h f (by simp)) minD]
      exact ih (fun g hg => h g (by simp [hg])) minD

/-- C9: on an empty region list, and on any region list whose every region
is skipped (unrecognized type, NaN circle fields, malformed polygon), the
evaluator returns `isInside = false` with `distance = Infinity`; and
whenever `isInside = true` the returned distance is exactly `0`. -/
theorem evaluator_default_result (o : GeoOracle) (lat lng : ℚ) :
    isInsideGeofence o lat lng [] = ⟨false, JsNum.infinity⟩
    ∧ (∀ fences : List Fence, (∀ f ∈ fences, skippedFence f = true) →
        isInsideGeofence o lat lng fences = ⟨false, JsNum.infinity⟩)
    ∧ (∀ fences : List Fence, (isInsideGeofence o lat lng fences).isInside = true →
        (isInsideGeofence o lat lng fences).distance = JsNum.val 0) := by
  refine ⟨rfl, ?_, ?_⟩
  · intro fences h
    rw [isInsideGeofence, evalLoop_all_skipped o lat lng fences h none]
    rfl
  · intro fences h
    rw [isInsideGeofence] at h ⊢
    simp only at h ⊢
    rw [if_pos h]

/-- Witness for C9: a list holding only a malformed polygon yields
`(false, Infinity)`, and a containing circle yields distance `0`. -/
theorem evaluator_default_result_witness :
    isInsideGeofence (constOracle 100) 0 0 [shortPolyFence] = ⟨false, JsNum.infinity⟩
    ∧ (isInsideGeofence (constOracle 100) 0 0 [circleFence 100]).distance
        = JsNum.val 0 :=
  ⟨(evaluator_default_result (constOracle 100) 0 0).2.1 [shortPolyFence] (by decide),
   (evaluator_default_result (constOracle 100) 0 0).2.2 [circleFence 100] (by decide)⟩

/-- C4: reprocessing a report with identical coordinates against the stored
containment state produced by the previous report raises zero geofence
transition events and leaves the stored state unchanged. -/
theorem geofence_diff_idempotent (o : GeoOracle) (lat lng : ℚ) (fences : List Fence)
    (trackers : List ℕ) (s0 : List ℕ) :
    processGeofences o lat lng fences trackers
        (processGeofences o lat lng fences trackers s0).2
      = ([], (processGeofences o lat lng fences trackers s0).2) := by
  by_cases hf : fences.isEmpty
  · simp [processGeofences, hf]
  · simp only [processGeofences, hf, if_false, Bool.false_eq_true]
    refine Prod.ext ?_ rfl
    simp only
    rw [List.flatMap_eq_nil_iff.mpr]
    intro g hg
    rw [List.filterMap_eq_nil_iff.mpr]
    intro uid huid
    cases hw : ((fences.filter
        (fun g => (isInsideGeofence o lat lng [g]).isInside)).map
          (fun g => g.geofence_id)).contains g.geofence_id <;> simp [hw]

/-- C3: the low-battery event fires iff the report carries a battery value
that is at most 20 while the previously recorded battery was above 20 or
unknown; and across two consecutive reports both at most 20, exactly the
first fires. -/
theorem low_battery_edge_trigger :
    (∀ prevBattery currBattery : Option ℚ,
      lowBatteryFires prevBattery currBattery = true ↔
        ∃ b, currBattery = some b ∧ b ≤ 20
          ∧ (prevBattery = none ∨ ∃ p, prevBattery = some p ∧ 20 < p))
    ∧ (∀ (m : DeviceMap) (d : String) (lat1 lng1 lat2 lng2 b1 b2 : ℚ)
        (t1 t2 : ℕ) (u1 u2 : Option ℕ),
        b1 ≤ 20 → b2 ≤ 20 →
        ((m d).bind (fun s => s.battery) = none
          ∨ ∃ p, (m d).bind (fun s => s.battery) = some p ∧ 20 < p) →
        (processBatteryReport m d lat1 lng1 (some b1) t1 u1).2 = true
        ∧ (processBatteryReport
            (processBatteryReport m d lat1 lng1 (some b1) t1 u1).1
            d lat2 lng2 (some b2) t2 u2).2 = false) := by
  have hiff : ∀ prevBattery currBattery : Option ℚ,
      lowBatteryFires prevBattery currBattery = true ↔
        ∃ b, currBattery = some b ∧ b ≤ 20
          ∧ (prevBattery = none ∨ ∃ p, prevBattery = some p ∧ 20 < p) := by
    intro prev curr
    cases curr with
    | none => simp [lowBatteryFires]
    | some b =>
        cases prev with
        | none => simp [lowBatteryFires]
        | some p => simp [lowBatteryFires]
  refine ⟨hiff, ?_⟩
  intro m d lat1 lng1 lat2 lng2 b1 b2 t1 t2 u1 u2 hb1 hb2 hprev
  constructor
  · show lowBatteryFires ((m d).bind (fun s => s.battery)) (some b1) = true
    exact (hiff _ _).mpr ⟨b1, rfl, hb1, hprev⟩
  · show lowBatteryFires
        ((if d = d then some (⟨lat1, lng1, some b1, t1, u1⟩ : DeviceSnapshot)
          else m d).bind (fun s => s.battery)) (some b2) = false
    simp [lowBatteryFires, not_lt.mpr hb1]

/-- Witness for C3: from an empty map, a 15% report fires the event and a
subsequent 10% report does not. -/
theorem low_battery_edge_trigger_witness :
    (processBatteryReport (fun _ => none) "PT-1" 0 0 (some 15) 1000 (some 7)).2 = true
    ∧ (processBatteryReport
        (processBatteryReport (fun _ => none) "PT-1" 0 0 (some 15) 1000 (some 7)).1
        "PT-1" 0 0 (some 10) 2000 (some 7)).2 = false :=
  low_battery_edge_trigger.2 (fun _ => none) "PT-1" 0 0 0 0 15 10 1000 2000
    (some 7) (some 7) (by norm_num) (by norm_num) (Or.inl rfl)

/-- The status map produced by the sweep, expressed through the list of
flipped devices. -/
theorem sweepStep_status (st : LiveState) (now : ℕ) (d : String) :
    (sweepStep st now).1.status d =
      if d ∈ (sweepStep st now).2 then some "offline" else st.status d := rfl

/-- Membership in the sweep's flip list: known device, stale last report,
not already offline. -/
theorem sweepStep_flips_mem (st : LiveState) (now : ℕ) (d : String) :
    d ∈ (sweepStep st now).2 ↔
      d ∈ st.devices
        ∧ (∃ t, st.lastSeen d = some t ∧ now - t > CHECK_INTERVAL)
        ∧ st.status d ≠ some "offline" := by
  simp only [sweepStep, List.mem_filter]
  rcases hls : st.lastSeen d with _ | t
  · simp
  · simp [Bool.and_eq_true, decide_eq_true_eq, and_assoc]

/-- C5: the synchronous report path always sets the reporting device's
status to `"online"` and never sets any status to `"offline"`; and the
sweep yields status `"offline"` exactly for devices that were already
offline or whose last report is more than `CHECK_INTERVAL` ms old. -/
theorem offline_only_from_sweep :
    (∀ (st : LiveState) (d : String) (now : ℕ),
      (reportStep st d now).1.status d = some "online")
    ∧ (∀ (st : LiveState) (d d' : String) (now : ℕ),
        (reportStep st d now).1.status d' = some "offline" →
        st.status d' = some "offline")
    ∧ (∀ (st : LiveState) (d : String) (now : ℕ),
        (sweepStep st now).1.status d = some "offline" ↔
          (st.status d = some "offline"
            ∨ (d ∈ st.devices ∧ ∃ t, st.lastSeen d = some t
                ∧ now - t > CHECK_INTERVAL))) := by
  refine ⟨?_, ?_, ?_⟩
  · intro st d now
    simp [reportStep]
  · intro st d d' now h
    simp only [reportStep] at h
    by_cases hd : d' = d
    · subst hd
      simp at h
    · simpa [hd] using h
  · intro st d now
    rw [sweepStep_status]
    by_cases hmem : d ∈ (sweepStep st now).2
    · rw [if_pos hmem]
      rw [sweepStep_flips_mem] at hmem
      obtain ⟨hdev, ⟨t, hls, hstale⟩, -⟩ := hmem
      simp only [true_iff]
      exact Or.inr ⟨hdev, t, hls, hstale⟩
    · rw [if_neg hmem]
      constructor
      · intro h
        exact Or.inl h
      · intro h
        rcases h with h | ⟨hdev, t, hls, hstale⟩
        · exact h
        · by_cases hoff : st.status d = some "offline"
          · exact hoff
          · exact absurd (sweepStep_flips_mem st now d |>.mpr
              ⟨hdev, ⟨t, hls, hstale⟩, hoff⟩) hmem

/-- Witness for C5: a fresh report puts the device online; a report for
another device leaves an offline status untouched; the sweep flips a stale
fresh device to offline. -/
theorem offline_only_from_sweep_witness :
    (reportStep ⟨[], fun _ => none, fun _ => none⟩ "PT-1" 5).1.status "PT-1"
        = some "online"
    ∧ (⟨["PT-1"], fun _ => some 0, fun _ => some "offline"⟩ : LiveState).status "PT-1"
        = some "offline"
    ∧ (sweepStep ⟨["PT-1"], fun _ => some 0, fun _ => none⟩ 40000).1.status "PT-1"
        = some "offline" :=
  ⟨offline_only_from_sweep.1 ⟨[], fun _ => none, fun _ => none⟩ "PT-1" 5,
   offline_only_from_sweep.2.1 ⟨["PT-1"], fun _ => some 0, fun _ => some "offline"⟩
      "PT-2" "PT-1" 5 (by simp [reportStep]),
   (offline_only_from_sweep.2.2 ⟨["PT-1"], fun _ => some 0, fun _ => none⟩
      "PT-1" 40000).mpr
      (Or.inr ⟨by simp, 0, rfl, by norm_num [CHECK_INTERVAL]⟩)⟩

/-- Once a key is latched, no later report for that key runs the
notification path. -/
theorem runNearby_latched (k : String) :
    ∀ (reports : List NearbyReport) (interactions : List String),
      interactions.contains k = true →
      (runNearby interactions reports).countP
        (fun o => o.key == k && o.notified) = 0 := by
  intro reports
  induction reports with
  | nil => intro interactions _; rfl
  | cons r rs ih =>
      intro interactions h
      simp only [runNearby, processNearbyReport, List.countP_cons]
      by_cases hc : interactions.contains (interactionKey r.deviceId r.nearbyIds) = true
      · simp only [hc, if_true, Bool.not_true, Bool.and_false, Bool.false_eq_true,
          if_false, Nat.add_zero]
        exact ih interactions h
      · have hc' : interactions.contains (interactionKey r.deviceId r.nearbyIds) = false := by
          simpa using hc
        have hne : (interactionKey r.deviceId r.nearbyIds == k) = false := by
          rw [beq_eq_false_iff_ne]
          intro he
          rw [he, h] at hc'
          cases hc'
        simp only [hc', Bool.false_eq_true, if_false, hne, Bool.false_and,
          Nat.add_zero]
        exact ih _ (by rw [List.contains_cons, h, Bool.or_true])

/-- From any latch state, at most one report per key runs the notification
path. -/
theorem runNearby_once (k : String) :
    ∀ (reports : List NearbyReport) (interactions : List String),
      (runNearby interactions reports).countP
        (fun o => o.key == k && o.notified) ≤ 1 := by
  intro reports
  induction reports with
  | nil => intro interactions; simp [runNearby]
  | cons r rs ih =>
      intro interactions
      simp only [runNearby, processNearbyReport, List.countP_cons]
      by_cases hc : interactions.contains (interactionKey r.deviceId r.nearbyIds) = true
      · simp only [hc, if_true, Bool.not_true, Bool.and_false, Bool.false_eq_true,
          if_false, Nat.add_zero]
        exact ih interactions
      · have hc' : interactions.contains (interactionKey r.deviceId r.nearbyIds) = false := by
          simpa using hc
        by_cases hk : interactionKey r.deviceId r.nearbyIds = k
        · have h0 := runNearby_latched k rs
            (interactionKey r.deviceId r.nearbyIds :: interactions)
            (by rw [List.contains_cons, hk, beq_self_eq_true, Bool.true_or])
          rw [hk] at h0 hc'
          rw [hk]
          have hmem : k ∉ interactions := by simpa using hc'
          simp [hmem, h0]
        · have hne : (interactionKey r.deviceId r.nearbyIds == k) = false := by
            rw [beq_eq_false_iff_ne]; exact hk
          simp only [hc', Bool.false_eq_true, if_false, hne, Bool.false_and,
            Nat.add_zero]
          exact ih (interactionKey r.deviceId r.nearbyIds :: interactions)

/-- The live broadcast is unconditional: every qualifying report broadcasts
to exactly its involved owners. -/
theorem runNearby_broadcasts :
    ∀ (reports : List NearbyReport) (interactions : List String),
      (runNearby interactions reports).map (fun o => o.broadcastTo)
        = reports.map (fun r => r.involvedUserIds) := by
  intro reports
  induction reports with
  | nil => intro interactions; rfl
  | cons r rs ih =>
      intro interactions
      simp only [runNearby, List.map_cons, List.map]
      exact congrArg _ (ih _)

/-- Sorting with the string order is invariant under permutation. -/
theorem mergeSort_strLe_eq_of_perm {l1 l2 : List String} (h : l1.Perm l2) :
    l1.mergeSort strLe = l2.mergeSort strLe := by
  have htrans : ∀ (a b c : String),
      strLe a b = true → strLe b c = true → strLe a c = true := by
    intro a b c hab hbc
    simp only [strLe, decide_eq_true_eq] at hab hbc ⊢
    exact le_trans hab hbc
  have htotal : ∀ (a b : String), (strLe a b || strLe b a) = true := by
    intro a b
    simp only [strLe, Bool.or_eq_true, decide_eq_true_eq]
    exact le_total a b
  haveI : IsAntisymm String (fun a b => strLe a b = true) := ⟨by
    intro a b ha hb
    simp only [strLe, decide_eq_true_eq] at ha hb
    exact le_antisymm ha hb⟩
  exact List.eq_of_perm_of_sorted
    (((List.mergeSort_perm l1 strLe).trans h).trans
      (List.mergeSort_perm l2 strLe).symm)
    (List.sorted_mergeSort htrans htotal l1)
    (List.sorted_mergeSort htrans htotal l2)

/-- C2: starting from the empty latch state (process start), the
notification/SMS path runs at most once per latch key; the live broadcast
reaches every involved owner on every qualifying report; and the latch key
identifies the unordered device set (permuting the group gives the same
key). -/
theorem nearby_latch_once_broadcast_every_time :
    (∀ (reports : List NearbyReport) (k : String),
      (runNearby [] reports).countP (fun o => o.key == k && o.notified) ≤ 1)
    ∧ (∀ (interactions : List String) (reports : List NearbyReport),
        (runNearby interactions reports).map (fun o => o.broadcastTo)
          = reports.map (fun r => r.involvedUserIds))
    ∧ (∀ (d1 d2 : String) (n1 n2 : List String),
        (n1 ++ [d1]).Perm (n2 ++ [d2]) →
        interactionKey d1 n1 = interactionKey d2 n2) :=
  ⟨fun reports k => runNearby_once k reports [],
   fun interactions reports => runNearby_broadcasts reports interactions,
   fun d1 d2 n1 n2 h => congrArg (String.intercalate ",")
      (mergeSort_strLe_eq_of_perm h)⟩

/-- Witness for C2: two identical qualifying reports notify once but
broadcast twice, and swapping the two devices yields the same latch key. -/
theorem nearby_latch_once_broadcast_every_time_witness :
    (runNearby [] [⟨"PT-2", ["PT-1"], ["7", "9"]⟩, ⟨"PT-2", ["PT-1"], ["7", "9"]⟩]).countP
        (fun o => o.key == "PT-1,PT-2" && o.notified) ≤ 1
    ∧ (runNearby [] [⟨"PT-2", ["PT-1"], ["7", "9"]⟩,
          ⟨"PT-2", ["PT-1"], ["7", "9"]⟩]).map (fun o => o.broadcastTo)
        = [["7", "9"], ["7", "9"]]
    ∧ interactionKey "PT-2" ["PT-1"] = interactionKey "PT-1" ["PT-2"] :=
  ⟨nearby_latch_once_broadcast_every_time.1
      [⟨"PT-2", ["PT-1"], ["7", "9"]⟩, ⟨"PT-2", ["PT-1"], ["7", "9"]⟩] "PT-1,PT-2",
   nearby_latch_once_broadcast_every_time.2.1 []
      [⟨"PT-2", ["PT-1"], ["7", "9"]⟩, ⟨"PT-2", ["PT-1"], ["7", "9"]⟩],
   nearby_latch_once_broadcast_every_time.2.2 "PT-2" "PT-1" ["PT-1"] ["PT-2"]
      (by decide)⟩

/-- A successful attempt returns immediately with no further sleeps. -/
theorem retryLoop_ok {α : Type} (op : ℕ → Except DbErrorCode α) (maxR a d : ℕ)
    (v : α) (h : op a = .ok v) : retryLoop op maxR a d = (.ok v, []) := by
  rw [retryLoop, h]

/-- A failed attempt that exhausts the budget or carries a non-retryable
code throws immediately. -/
theorem retryLoop_stop {α : Type} (op : ℕ → Except DbErrorCode α) (maxR a d : ℕ)
    (e : DbErrorCode) (h : op a = .error e)
    (hstop : a ≥ maxR ∨ isRetryableError e = false) :
    retryLoop op maxR a d = (.error e, []) := by
  rw [retryLoop, h]
  exact dif_pos hstop

/-- A retryable failure below the budget sleeps `delay` and retries with
the delay doubled. -/
theorem retryLoop_retry {α : Type} (op : ℕ → Except DbErrorCode α) (maxR a d : ℕ)
    (e : DbErrorCode) (h : op a = .error e) (hlt : a < maxR)
    (hret : isRetryableError e = true) :
    retryLoop op maxR a d
      = ((retryLoop op maxR (a + 1) (d * 2)).1,
         d :: (retryLoop op maxR (a + 1) (d * 2)).2) := by
  rw [retryLoop, h]
  exact dif_neg (by push_neg; exact ⟨by omega, by simp [hret]⟩)

/-- Running the loop across `k` consecutive retryable failures performs the
doubling backoff schedule and continues at attempt `a + k`. -/
theorem retryLoop_advance {α : Type} (op : ℕ → Except DbErrorCode α) (maxR : ℕ) :
    ∀ (k a d : ℕ), a + k ≤ maxR →
      (∀ i, i < k → ∃ e, op (a + i) = .error e ∧ isRetryableError e = true) →
      retryLoop op maxR a d
        = ((retryLoop op maxR (a + k) (d * 2 ^ k)).1,
           geomSleeps d k ++ (retryLoop op maxR (a + k) (d * 2 ^ k)).2) := by
  intro k
  induction k with
  | zero =>
      intro a d _ _
      simp [geomSleeps]
  | succ k ih =>
      intro a d hle herr
      obtain ⟨e, hop, hret⟩ := herr 0 (Nat.succ_pos k)
      rw [Nat.add_zero] at hop
      rw [retryLoop_retry op maxR a d e hop (by omega) hret]
      rw [ih (a + 1) (d * 2) (by omega) (fun i hi => by
        have h2 := herr (i + 1) (by omega)
        have heq : a + (i + 1) = a + 1 + i := by omega
        rw [heq] at h2
        exact h2)]
      have h1 : a + 1 + k = a + (k + 1) := by omega
      have h2 : d * 2 * 2 ^ k = d * 2 ^ (k + 1) := by ring
      rw [h1, h2]
      rfl

/-- C8: the retry helper returns the first successful attempt's result;
throws a non-retryable error immediately (after only the sleeps already
performed); and after consecutive retryable failures retries with doubling
delays up to the retry budget, then throws the last error. -/
theorem executeWithRetry_policy :
    (∀ (α : Type) (op : ℕ → Except DbErrorCode α) (maxR d0 k : ℕ) (v : α),
      k ≤ maxR →
      (∀ i, i < k → ∃ e, op i = .error e ∧ isRetryableError e = true) →
      op k = .ok v →
      executeWithRetry op maxR d0 = (.ok v, geomSleeps d0 k))
    ∧ (∀ (α : Type) (op : ℕ → Except DbErrorCode α) (maxR d0 k : ℕ) (e : DbErrorCode),
      k ≤ maxR →
      (∀ i, i < k → ∃ e', op i = .error e' ∧ isRetryableError e' = true) →
      op k = .error e → isRetryableError e = false →
      executeWithRetry op maxR d0 = (.error e, geomSleeps d0 k))
    ∧ (∀ (α : Type) (op : ℕ → Except DbErrorCode α) (maxR d0 : ℕ) (e : DbErrorCode),
      (∀ i, i < maxR → ∃ e', op i = .error e' ∧ isRetryableError e' = true) →
      op maxR = .error e → isRetryableError e = true →
      executeWithRetry op maxR d0 = (.error e, geomSleeps d0 maxR)) := by
  refine ⟨?_, ?_, ?_⟩
  · intro α op maxR d0 k v hk herr hok
    rw [executeWithRetry, retryLoop_advance op maxR k 0 d0 (by omega)
      (fun i hi => by simpa using herr i hi)]
    rw [retryLoop_ok op maxR (0 + k) (d0 * 2 ^ k) v (by simpa using hok)]
    simp
  · intro α op maxR d0 k e hk herr herrk hnret
    rw [executeWithRetry, retryLoop_advance op maxR k 0 d0 (by omega)
      (fun i hi => by simpa using herr i hi)]
    rw [retryLoop_stop op maxR (0 + k) (d0 * 2 ^ k) e (by simpa using herrk)
      (Or.inr hnret)]
    simp
  · intro α op maxR d0 e herr herrk hret
    rw [executeWithRetry, retryLoop_advance op maxR maxR 0 d0 (by omega)
      (fun i hi => by simpa using herr i hi)]
    rw [retryLoop_stop op maxR (0 + maxR) (d0 * 2 ^ maxR) e (by simpa using herrk)
      (Or.inl (by omega))]
    simp

/-- Witness for C8: two resets then success returns the success after two
sleeps; a duplicate-key error throws after one sleep; constant timeouts
exhaust the default budget of three retries with doubling delays. -/
theorem executeWithRetry_policy_witness :
    executeWithRetry opRetryTwice 3 500 = (.ok 42, [500, 1000])
    ∧ executeWithRetry opFatalSecond 3 500
        = (.error (DbErrorCode.other "ER_DUP_ENTRY"), [500])
    ∧ executeWithRetry opAlwaysTimeout 3 500
        = (.error DbErrorCode.ETIMEDOUT, [500, 1000, 2000]) :=
  ⟨by
    have h := executeWithRetry_policy.1 ℕ opRetryTwice 3 500 2 42 (by omega)
      (fun i hi => ⟨DbErrorCode.ECONNRESET, by simp [opRetryTwice, hi], rfl⟩) rfl
    simpa [geomSleeps] using h,
   by
    have h := executeWithRetry_policy.2.1 ℕ opFatalSecond 3 500 1
      (DbErrorCode.other "ER_DUP_ENTRY") (by omega)
      (fun i hi => by
        have hz : i = 0 := by omega
        subst hz
        exact ⟨DbErrorCode.ETIMEDOUT, rfl, rfl⟩) rfl rfl
    simpa [geomSleeps] using h,
   by
    have h := executeWithRetry_policy.2.2 ℕ opAlwaysTimeout 3 500
      DbErrorCode.ETIMEDOUT (fun i _ => ⟨DbErrorCode.ETIMEDOUT, rfl, rfl⟩) rfl rfl
    simpa [geomSleeps] using h⟩

end PetTracker
